import Mathlib

/-!
Verification of the SAGE trigger/condition server
(`sage/utils/trigger_server.py`) and the simulated device backend
(`sage/testing/fake_requests.py`).

Python dictionaries are modelled as association lists with in-place
update semantics; Python exceptions are modelled with `Except PyError`.
`run_code` executes arbitrary Python source, so it is taken as an
oracle parameter of type `String → String → Except PyError V`.
-/

set_option autoImplicit false

namespace SAGE

/-- Python exception values that the modelled code can raise. `notFound`
is not raised by any modelled function; it stands for the structured
NotFound error that the specification postulates, so that theorems can
compare what the code raises against it. -/
inductive PyError where
  | keyError (k : String)
  | valueError (msg : String)
  | typeError (msg : String)
  | indexError
  | notFound
  deriving DecidableEq, Repr

/-- Python `d[k]` lookup on a dict modelled as an association list:
the first binding of the key, if any. -/
def dget {α : Type} : List (String × α) → String → Option α
  | [], _ => none
  | (k', v) :: rest, k => if k' = k then some v else dget rest k

/-- Python `d[k] = v` on a dict modelled as an association list:
replace the binding in place if the key is present, append it otherwise. -/
def dset {α : Type} : List (String × α) → String → α → List (String × α)
  | [], k, v => [(k, v)]
  | (k', v') :: rest, k, v =>
    if k' = k then (k', v) :: rest else (k', v') :: dset rest k v

/-- Python `d.update(e)`: write every binding of `e` into `d`. -/
def dupdate {α : Type} (d e : List (String × α)) : List (String × α) :=
  e.foldl (fun acc kv => dset acc kv.1 kv.2) d

/-- Python `d[k]` as an expression: raises `KeyError` when absent. -/
def pyGet {α : Type} (d : List (String × α)) (k : String) : Except PyError α :=
  match dget d k with
  | some v => .ok v
  | none => .error (.keyError k)

/-! ## Trigger server data model (`trigger_server.py`)

Condition results are arbitrary Python values compared with `==`/`!=`,
so the model is parametric in a type `V` of results with decidable
equality. -/

/-- A registered condition (`reqjson["condition"]`): the routine to
check, the result value to notify on, and the notification payload. -/
structure ConditionRecord (V : Type) where
  function_name : String
  notify_when : V
  action_description : String
  user_name : String
  deriving DecidableEq, Repr

/-- A code registry entry (`reqjson["code"][fn_name]`): the defining
source, the one-line invocation, and the last observed result. -/
structure CodeEntry (V : Type) where
  code_define : String
  code_run : String
  last_result : V
  deriving DecidableEq, Repr

/-- The code registry: routine name → code entry (a Python dict). -/
abbrev CodeReg (V : Type) := List (String × CodeEntry V)

/-- The semantics of `run_code`, which `exec`s arbitrary Python source:
an oracle from the two source strings to a result or an exception. -/
abbrev RunCode (V : Type) := String → String → Except PyError V

/-- `check_conditions`: check all conditions once.  Walks the registry
in order; for each condition it looks up the code entry (`KeyError` if
absent, propagated), runs the routine (an exception propagates and
aborts the walk, keeping the updates made so far), and on a changed
result stores it, returning the condition when the new result equals
its `notify_when`.  Returns the (in-place mutated) code registry
together with the triggered condition, `none`, or the escaped
exception. -/
def check_conditions {V : Type} [DecidableEq V] (run_code : RunCode V) :
    List (ConditionRecord V) → CodeReg V →
    CodeReg V × Except PyError (Option (ConditionRecord V))
  | [], codes => (codes, .ok none)
  | condition :: rest, codes =>
    match dget codes condition.function_name with
    | none => (codes, .error (.keyError condition.function_name))
    | some code =>
      match run_code code.code_define code.code_run with
      | .error e => (codes, .error e)
      | .ok status =>
        if code.last_result ≠ status then
          let codes' := dset codes condition.function_name
            { code with last_result := status }
          if status = condition.notify_when then (codes', .ok (some condition))
          else check_conditions run_code rest codes'
        else check_conditions run_code rest codes

/-- The trace of routine invocations performed by one
`check_conditions` walk: the function names whose `run_code` is
reached, in order, following exactly the control flow of
`check_conditions`. -/
def check_conditions_calls {V : Type} [DecidableEq V] (run_code : RunCode V) :
    List (ConditionRecord V) → CodeReg V → List String
  | [], _ => []
  | condition :: rest, codes =>
    match dget codes condition.function_name with
    | none => []
    | some code =>
      match run_code code.code_define code.code_run with
      | .error _ => [condition.function_name]
      | .ok status =>
        if code.last_result ≠ status then
          if status = condition.notify_when then [condition.function_name]
          else condition.function_name ::
            check_conditions_calls run_code rest
              (dset codes condition.function_name
                { code with last_result := status })
        else condition.function_name :: check_conditions_calls run_code rest codes

/-- The message `condition_poller` sends over the pipe when a condition
triggers: the action text, the user, and the poller's view of the
condition registry. -/
structure TriggerMessage (V : Type) where
  command : String
  user : String
  conditions : List (ConditionRecord V)
  deriving DecidableEq, Repr

/-- The state of the poller process: running with its (local, pickled)
code registry, or dead because an exception escaped `check_conditions`
(`condition_poller` has no handler around it). -/
inductive PollerState (V : Type) where
  | running (codes : CodeReg V)
  | crashed (e : PyError) (codes : CodeReg V)
  deriving DecidableEq, Repr

/-- One iteration of `condition_poller`'s loop: run `check_conditions`
on the poller's local registries and send a `TriggerMessage` when a
condition triggered.  An escaped exception kills the process: a crashed
poller does nothing ever after. -/
def poller_cycle {V : Type} [DecidableEq V] (run_code : RunCode V)
    (conds : List (ConditionRecord V)) :
    PollerState V → PollerState V × Option (TriggerMessage V)
  | .crashed e codes => (.crashed e codes, none)
  | .running codes =>
    match check_conditions run_code conds codes with
    | (codes', .error e) => (.crashed e codes', none)
    | (codes', .ok none) => (.running codes', none)
    | (codes', .ok (some c)) =>
      (.running codes', some ⟨c.action_description, c.user_name, conds⟩)

/-- `n` iterations of `condition_poller`'s loop, with a per-cycle
`run_code` oracle (cycle `i` uses `run_code i`); collects the messages
sent over the pipe in order. -/
def poller_run {V : Type} [DecidableEq V] (run_code : Nat → RunCode V)
    (conds : List (ConditionRecord V)) (st : PollerState V) :
    Nat → PollerState V × List (TriggerMessage V)
  | 0 => (st, [])
  | n + 1 =>
    let out := poller_run run_code conds st n
    let step := poller_cycle (run_code n) conds out.1
    (step.1, out.2 ++ step.2.toList)

/-- `BaseTriggerServer._check_triggers`: pop and return the oldest
buffered trigger, or an empty result when the buffer is empty. -/
def check_triggers {α : Type} : List α → Option α × List α
  | [] => (none, [])
  | t :: rest => (some t, rest)

/-- `BaseTriggerServer._manual_trigger`: append a posted payload to the
trigger buffer. -/
def trigger_manually {α : Type} (triggers : List α) (payload : α) : List α :=
  triggers ++ [payload]

/-- The body of a `POST /add_condition` request: optional new code
entries and one condition record. -/
structure AddConditionRequest (V : Type) where
  code : Option (CodeReg V)
  condition : ConditionRecord V
  deriving Repr

/-- What `ConditionTriggerServer.poll_triggers` stores in the trigger
buffer for one received pipe message: `{user, command}`. -/
structure TriggerOut where
  user : String
  command : String
  deriving DecidableEq, Repr

/-- The `ConditionTriggerServer` process together with its poller
subprocess.  The poller is started with `mp.get_context("spawn")`, so
`poller_conds` and the registry inside `poller` are pickled copies of
the server's `conditions` and `codes` taken at the last
`run_process`; mutations the subprocess makes to them are invisible to
the server. -/
structure ServerState (V : Type) where
  conditions : List (ConditionRecord V)
  codes : CodeReg V
  triggers : List TriggerOut
  poller : PollerState V
  poller_conds : List (ConditionRecord V)
  deriving Repr

/-- A fresh `ConditionTriggerServer` right after `main` has called
`run_process`: empty registries, empty buffer, poller started on
copies of the empty registries. -/
def initial_server (V : Type) : ServerState V :=
  ⟨[], [], [], .running [], []⟩

/-- `ConditionTriggerServer._add_condition`: merge the request's code
entries into the code registry with `dict.update`, append the
condition record, then `run_process` — terminate the old poller and
spawn a new one on pickled copies of the updated registries. -/
def add_condition {V : Type} (s : ServerState V) (req : AddConditionRequest V) :
    ServerState V :=
  let codes := match req.code with
    | some newCodes => dupdate s.codes newCodes
    | none => s.codes
  let conditions := s.conditions ++ [req.condition]
  { conditions := conditions
    codes := codes
    triggers := s.triggers
    poller := .running codes
    poller_conds := conditions }

/-- One poller cycle followed by the server's `poll_triggers` drain of
the pipe (delivery is modelled as synchronous): on a received message
the server buffers `{user, command}` and overwrites its `conditions`
with the snapshot carried by the message. -/
def server_poll_cycle {V : Type} [DecidableEq V] (run_code : RunCode V)
    (s : ServerState V) : ServerState V :=
  match poller_cycle run_code s.poller_conds s.poller with
  | (p', none) => { s with poller := p' }
  | (p', some msg) =>
    { s with
      poller := p'
      triggers := s.triggers ++ [⟨msg.user, msg.command⟩]
      conditions := msg.conditions }

/-- An externally observable event hitting the running server: an
`add_condition` request, or one tick of the poller (with that cycle's
`run_code` semantics). -/
inductive ServerEvent (V : Type) where
  | add (req : AddConditionRequest V)
  | poll (run_code : RunCode V)

/-- Run the server through a sequence of events. -/
def server_run {V : Type} [DecidableEq V] :
    ServerState V → List (ServerEvent V) → ServerState V
  | s, [] => s
  | s, .add req :: rest => server_run (add_condition s req) rest
  | s, .poll rc :: rest => server_run (server_poll_cycle rc s) rest

/-! ## Simulated device backend (`fake_requests.py`)

The device tree is the nested-dict JSON document stored per test id in
the `device_state` Mongo collection:
`device_state[device_id][component][capability][attribute]["value"]`.
Leaf values and command arguments are JSON values, modelled by `PVal`
(objects as `PObj`, an association list). -/

mutual
/-- A Python/JSON value as it occurs in command arguments and device
tree leaves. -/
inductive PVal where
  | pInt (n : Int)
  | pStr (s : String)
  | pObj (fields : PObj)
  deriving DecidableEq, Repr

/-- The fields of a JSON object value. -/
inductive PObj where
  | nil
  | cons (k : String) (v : PVal) (rest : PObj)
  deriving DecidableEq, Repr
end

/-- Python subscript `v[k]` on a JSON value: `TypeError` unless `v` is
an object, `KeyError` when the key is absent. -/
def pvalGetKey : PVal → String → Except PyError PVal
  | .pObj fields, k =>
    let rec go : PObj → Except PyError PVal
      | .nil => .error (.keyError k)
      | .cons k' v rest => if k' = k then .ok v else go rest
    go fields
  | .pInt _, _ => .error (.typeError "int object is not subscriptable")
  | .pStr _, _ => .error (.typeError "string indices must be integers")

/-- Python `v <= bound` against an integer literal: `TypeError` unless
`v` is an integer. -/
def pvalLe (v : PVal) (bound : Int) : Except PyError Bool :=
  match v with
  | .pInt n => .ok (decide (n ≤ bound))
  | _ => .error (.typeError "comparison not supported between instances")

/-- Python `v + m` against an integer literal (used by
`volumeUp`/`volumeDown`): `TypeError` unless `v` is an integer. -/
def pvalAddInt (v : PVal) (m : Int) : Except PyError PVal :=
  match v with
  | .pInt n => .ok (.pInt (n + m))
  | _ => .error (.typeError "unsupported operand type")

/-- Python `args[i]`: `IndexError` past the end. -/
def listGet {α : Type} : List α → Nat → Except PyError α
  | [], _ => .error .indexError
  | x :: _, 0 => .ok x
  | _ :: xs, n + 1 => listGet xs n

/-- One attribute's dict, e.g. `{"value": "on"}`. -/
abbrev AttrD := List (String × PVal)
/-- One capability's dict: attribute name → attribute dict. -/
abbrev CapD := List (String × AttrD)
/-- One component's dict: capability name → capability dict. -/
abbrev CompD := List (String × CapD)
/-- One device's dict: component name → component dict. -/
abbrev DevD := List (String × CompD)
/-- The whole device tree: device id → device dict. -/
abbrev DeviceState := List (String × DevD)

instance instDecEqAttrD : DecidableEq AttrD := inferInstance

instance instDecEqCapD : DecidableEq CapD := inferInstance

instance instDecEqCompD : DecidableEq CompD := inferInstance

instance instDecEqDevD : DecidableEq DevD := inferInstance

instance instDecEqDeviceState : DecidableEq DeviceState := inferInstance

/-- The Python statement
`device_state[dev][comp][cap][attr]["value"] = v`: each subscript on
the path raises `KeyError` when absent; the final `"value"` assignment
always succeeds.  The in-place dict mutation is modelled by writing the
updated dicts back along the path. -/
def setValue (ds : DeviceState) (dev comp cap attr : String) (v : PVal) :
    Except PyError DeviceState := do
  let devd ← pyGet ds dev
  let compd ← pyGet devd comp
  let capd ← pyGet compd cap
  let attrd ← pyGet capd attr
  pure (dset ds dev (dset devd comp (dset compd cap
    (dset capd attr (dset attrd "value" v)))))

/-- The Python expression `device_state[dev][comp][cap][attr]["value"]`. -/
def getValue (ds : DeviceState) (dev comp cap attr : String) :
    Except PyError PVal := do
  let devd ← pyGet ds dev
  let compd ← pyGet devd comp
  let capd ← pyGet compd cap
  let attrd ← pyGet capd attr
  pyGet attrd "value"

/-- Python `str(e)` for the exceptions raised by the command loop, as
interpolated into the `"An error occurred: "` body. -/
def pyErrStr : PyError → String
  | .keyError k => "'" ++ k ++ "'"
  | .valueError msg => msg
  | .typeError msg => msg
  | .indexError => "list index out of range"
  | .notFound => "not found"

/-- `requests.Response` as mimicked by `FakeResponse`: the JSON body
(every POST-path body is a list of strings) and the status code. -/
structure FakeResponse where
  json_content : List String
  status_code : Nat
  deriving DecidableEq, Repr

/-- One entry of `kwargs["json"]["commands"]`. -/
structure Command where
  component : String
  capability : String
  command : String
  arguments : List PVal
  deriving DecidableEq, Repr

/-- The outcome of one iteration of the command loop: fall through to
the next command carrying the mutated local tree and the running
`update_state` flag, or a `return` out of the whole request handler
(the unsupported-capability branch). -/
inductive CmdStep where
  | cont (ds : DeviceState) (update_state : Bool)
  | ret (resp : FakeResponse)
  deriving DecidableEq, Repr

/-- One iteration of the `for com in kwargs["json"]["commands"]` loop
of `request` for POST: the component membership check followed by the
capability/command dispatch, mutating the local tree and the
`update_state` flag, raising `ValueError`/`KeyError`/`TypeError`/
`IndexError` exactly where the Python does, and returning the
`"capability not supported yet"` response from the final `else`. -/
def apply_command (ds : DeviceState) (device_id : String) (com : Command)
    (update_state : Bool) : Except PyError CmdStep := do
  let devd ← pyGet ds device_id
  if (dget devd com.component).isNone then
    throw (.valueError ("The component " ++ com.component ++ " is not supported."))
  else if com.capability = "switch" then
    if com.command = "on" ∨ com.command = "off" then do
      let ds' ← setValue ds device_id com.component com.capability "switch"
        (.pStr com.command)
      pure (.cont ds' true)
    else
      throw (.valueError ("Invalid command: " ++ com.command))
  else if com.capability = "switchLevel" then do
    let ds' ←
      if com.command = "setLevel" then do
        let a ← listGet com.arguments 0
        match a with
        | .pInt n =>
          setValue ds device_id com.component com.capability "level" (.pInt n)
        | _ =>
          throw (.valueError
            "The switchLevel command expects an integer for the level argument.")
      else
        pure ds
    pure (.cont ds' true)
  else if com.capability = "colorTemperature" then do
    let ds' ←
      if com.command = "setColorTemperature" then do
        let a ← listGet com.arguments 0
        setValue ds device_id com.component com.capability "colorTemperature" a
      else
        pure ds
    pure (.cont ds' true)
  else if com.capability = "colorControl" then
    if com.command = "setHue" then do
      let a ← listGet com.arguments 0
      let le ← pvalLe a 100
      if le then do
        let ds' ← setValue ds device_id com.component com.capability "hue" a
        pure (.cont ds' true)
      else
        throw (.valueError
          "[\x27The hue value should be in percentage between 0-100\x27]")
    else if com.command = "setSaturation" then do
      let a ← listGet com.arguments 0
      let ds' ← setValue ds device_id com.component com.capability "saturation" a
      pure (.cont ds' true)
    else if com.command = "setColor" then do
      let a ← listGet com.arguments 0
      let hue ← pvalGetKey a "hue"
      let le ← pvalLe hue 100
      if le then do
        let ds1 ← setValue ds device_id com.component com.capability "hue" hue
        let sat ← pvalGetKey a "saturation"
        let ds2 ← setValue ds1 device_id com.component com.capability "saturation" sat
        pure (.cont ds2 true)
      else
        throw (.valueError
          "[\x27The hue value should be in percentage between 0-100\x27]")
    else
      pure (.cont ds update_state)
  else if com.capability = "tvChannel" then
    if com.command = "setTvChannel" then do
      let a ← listGet com.arguments 0
      let ds' ← setValue ds device_id com.component com.capability "tvChannel" a
      pure (.cont ds' true)
    else
      throw (.valueError ("Invalid command or value: " ++ com.command))
  else if com.capability = "audioVolume" then
    if com.command = "setVolume" then do
      let a ← listGet com.arguments 0
      let ds' ← setValue ds device_id com.component com.capability "volume" a
      pure (.cont ds' true)
    else if com.command = "volumeDown" then do
      let v ← getValue ds device_id com.component com.capability "volume"
      let v' ← pvalAddInt v (-5)
      let ds' ← setValue ds device_id com.component com.capability "volume" v'
      pure (.cont ds' true)
    else if com.command = "volumeUp" then do
      let v ← getValue ds device_id com.component com.capability "volume"
      let v' ← pvalAddInt v 5
      let ds' ← setValue ds device_id com.component com.capability "volume" v'
      pure (.cont ds' true)
    else
      throw (.valueError ("Invalid command: " ++ com.command ++
        " for the capability " ++ com.capability))
  else if com.capability = "refresh" then
    pure (.cont ds update_state)
  else if com.capability = "samsungce.dishwasherWashingCourse" then
    if com.command = "setWashingCourse" then do
      let a ← listGet com.arguments 0
      let ds' ← setValue ds device_id com.component
        "samsungce.dishwasherWashingCourse" "washingCourse" a
      pure (.cont ds' true)
    else
      pure (.cont ds update_state)
  else if com.capability = "execute" then
    if com.command = "start" then do
      let ds' ← setValue ds device_id com.component
        "dishwasherOperatingState" "machineState" (.pStr "run")
      pure (.cont ds' true)
    else
      throw (.valueError ("Invalid command or value: " ++ com.command))
  else if com.capability = "custom.thermostatSetpointControl" then
    if com.command = "setSetpoint" then do
      let a ← listGet com.arguments 0
      let ds' ← setValue ds device_id com.component
        "temperatureMeasurement" "temperature" a
      pure (.cont ds' true)
    else
      throw (.valueError ("Invalid command or value: " ++ com.command))
  else if com.capability = "dishwasherOperatingState" then
    if com.command = "setMachineState" then do
      let a ← listGet com.arguments 0
      let ds' ← setValue ds device_id com.component
        "dishwasherOperatingState" "machineState" a
      pure (.cont ds' true)
    else
      throw (.valueError ("Invalid command: " ++ com.command))
  else if com.capability = "thermostatCoolingSetpoint" then
    if com.component = "main" then
      throw (.valueError
        "The main component does not allow temperature reading or control")
    else if com.command = "setCoolingSetpoint" then do
      let a ← listGet com.arguments 0
      let ds1 ← setValue ds device_id com.component
        "thermostatCoolingSetpoint" "coolingSetpoint" a
      let ds2 ← setValue ds1 device_id com.component
        "temperatureMeasurement" "temperature" a
      pure (.cont ds2 true)
    else
      pure (.cont ds update_state)
  else
    pure (.ret ⟨["capability not supported yet"], 500⟩)

/-- The whole `for` loop over the request's commands, threading the
local tree and the `update_state` flag.  Exceptions propagate to the
enclosing `try`; an early `return` aborts the loop. -/
def commands_loop (device_id : String) :
    DeviceState → Bool → List Command → Except PyError CmdStep
  | ds, update_state, [] => pure (.cont ds update_state)
  | ds, update_state, com :: rest => do
    match ← apply_command ds device_id com update_state with
    | .cont ds' u' => commands_loop device_id ds' u' rest
    | .ret resp => pure (.ret resp)

/-- The POST branch of `request`: load the persisted tree (a fresh
copy from the database), run the command loop under
`try/except Exception`, and persist the local tree via
`set_device_state` only when `update_state` ended up true and the loop
neither raised nor returned early.  Yields the response together with
the tree persisted in the state store after the call. -/
def post_request (persisted : DeviceState) (device_id : String)
    (commands : List Command) : FakeResponse × DeviceState :=
  match commands_loop device_id persisted false commands with
  | .error e => (⟨["An error occurred: " ++ pyErrStr e], 500⟩, persisted)
  | .ok (.ret resp) => (resp, persisted)
  | .ok (.cont ds' update_state) =>
    (⟨["successfully executed command"], 200⟩,
     if update_state then ds' else persisted)

/-- The `device_state` Mongo collection: test id → device tree. -/
abbrev DeviceStateColl := List (String × DeviceState)

/-- `find_one({"test_id": tid})`: the stored document, or Python
`None`. -/
def find_one (coll : DeviceStateColl) (tid : String) : Option DeviceState :=
  dget coll tid

/-- `TestLogsDb.get_device_state`: subscripts the result of `find_one`
with `["device_state"]`; when no document exists `find_one` returns
`None` and the subscript raises `TypeError`. -/
def get_device_state (coll : DeviceStateColl) (tid : String) :
    Except PyError DeviceState :=
  match find_one coll tid with
  | some doc => .ok doc
  | none => .error (.typeError "NoneType object is not subscriptable")

/-- `TestLogsDb.set_device_state`: `find_one_and_replace` with
`upsert=True`, i.e. replace-or-insert the tree for the test id. -/
def set_device_state (coll : DeviceStateColl) (tid : String)
    (ds : DeviceState) : DeviceStateColl :=
  dset coll tid ds

/-- The capability names handled by the `elif` chain of the POST
command loop; any other capability reaches the final `else`. -/
def knownCapabilities : List String :=
  ["switch", "switchLevel", "colorTemperature", "colorControl",
   "tvChannel", "audioVolume", "refresh",
   "samsungce.dishwasherWashingCourse", "execute",
   "custom.thermostatSetpointControl", "dishwasherOperatingState",
   "thermostatCoolingSetpoint"]

/-! ## Concrete fixtures used by the counterexamples and witnesses -/

/-- A condition on routine `fa`, notifying when the result is `true`. -/
def condA : ConditionRecord Bool := ⟨"fa", true, "close the window", "alice"⟩

/-- A second condition, on routine `fb`, registered after `condA`. -/
def condB : ConditionRecord Bool := ⟨"fb", true, "water the plants", "bob"⟩

/-- A re-registration of routine `fa` by a different condition. -/
def condA2 : ConditionRecord Bool := ⟨"fa", true, "open the blinds", "carol"⟩

/-- Code registry seeding both routines with `last_result = false`. -/
def codes0 : CodeReg Bool :=
  [("fa", ⟨"defA", "runA()", false⟩), ("fb", ⟨"defB", "runB()", false⟩)]

/-- A `run_code` semantics under which every routine returns `true`. -/
def rcTrue : RunCode Bool := fun _ _ => .ok true

/-- A `run_code` semantics under which every routine returns `false`. -/
def rcFalse : RunCode Bool := fun _ _ => .ok false

/-- A cycle-indexed `run_code` semantics under which routine `fa`
raises every cycle while routine `fb` returns `false` on cycle 0 and
`true` from cycle 1 on. -/
def rcFailA : Nat → RunCode Bool := fun n _ code_run =>
  if code_run = "runA()" then .error (.valueError "boom")
  else .ok (decide (1 ≤ n))

/-- The registration request carrying `condA` and its code. -/
def reqA : AddConditionRequest Bool :=
  ⟨some [("fa", ⟨"defA", "runA()", false⟩)], condA⟩

/-- The registration request carrying `condB` and its code. -/
def reqB : AddConditionRequest Bool :=
  ⟨some [("fb", ⟨"defB", "runB()", false⟩)], condB⟩

/-- The re-registration request for routine `fa` with fresh code. -/
def reqA2 : AddConditionRequest Bool :=
  ⟨some [("fa", ⟨"defA2", "runA2()", true⟩)], condA2⟩

/-- A small device tree: one device `d1` with a switch, a dimmer and
color control on its `main` component. -/
def tree0 : DeviceState :=
  [("d1", [("main",
    [("switch", [("switch", [("value", .pStr "off")])]),
     ("switchLevel", [("level", [("value", .pInt 80)])]),
     ("colorControl",
       [("hue", [("value", .pInt 10)]),
        ("saturation", [("value", .pInt 20)])])])])]

/-! ## Theorems -/

@[simp] theorem dget_dset_self {α : Type} (d : List (String × α)) (k : String)
    (v : α) : dget (dset d k v) k = some v := by
  induction d with
  | nil => simp [dget, dset]
  | cons hd tl ih =>
    obtain ⟨k', v'⟩ := hd
    by_cases h : k' = k
    · simp [dget, dset, h]
    · simp [dget, dset, h, ih]

theorem dget_dset_ne {α : Type} (d : List (String × α)) (k k' : String) (v : α)
    (h : k ≠ k') : dget (dset d k v) k' = dget d k' := by
  induction d with
  | nil => simp [dget, dset, h]
  | cons hd tl ih =>
    obtain ⟨k0, v0⟩ := hd
    by_cases h0 : k0 = k
    · subst h0
      simp [dget, dset, h]
    · simp only [dset, if_neg h0, dget]
      by_cases h1 : k0 = k'
      · simp [h1]
      · simp [h1, ih]

@[simp] theorem except_ok_bind {ε α β : Type} (a : α) (f : α → Except ε β) :
    (Except.ok a : Except ε α) >>= f = f a := rfl

@[simp] theorem except_error_bind {ε α β : Type} (e : ε)
    (f : α → Except ε β) : (Except.error e : Except ε α) >>= f = .error e :=
  rfl

@[simp] theorem except_throw_eq {ε α : Type} (e : ε) :
    (throw e : Except ε α) = .error e := rfl

@[simp] theorem except_pure_eq {ε α : Type} (a : α) :
    (pure a : Except ε α) = .ok a := rfl

/-- C7: `check_triggers` returns and removes the oldest buffered
trigger (manual triggers are appended at the back, so the head is the
oldest), returns an empty result on an empty buffer, and is idempotent
once the buffer is drained: calling it on the buffer it left behind
returns empty again and leaves the buffer empty, with no other side
effect. -/
theorem check_triggers_fifo_idempotent {α : Type} (t x : α) (rest : List α) :
    check_triggers (t :: rest) = (some t, rest) ∧
    check_triggers ([] : List α) = (none, []) ∧
    check_triggers ((check_triggers ([] : List α)).2) = (none, []) ∧
    check_triggers (trigger_manually (t :: rest) x) = (some t, rest ++ [x]) :=
  ⟨rfl, rfl, rfl, rfl⟩

/-- C9 counterexample: reading the device state of a session id for
which nothing was ever stored raises a `TypeError` (the code
subscripts the `None` returned by `find_one`), not the structured
`NotFound` error the claim requires. -/
theorem get_missing_session_not_structured :
    get_device_state [] "t42" =
      .error (.typeError "NoneType object is not subscriptable") ∧
    get_device_state [] "t42" ≠ .error .notFound := by
  refine ⟨rfl, ?_⟩
  intro h
  simp [get_device_state, find_one, dget] at h

/-- C9 amended: reading the device state of a session id for which no
state has been set fails by raising an untyped `TypeError` (the result
of `find_one` is `None` and the code subscripts it). -/
theorem get_missing_session_raises_typeerror (coll : DeviceStateColl)
    (tid : String) (h : find_one coll tid = none) :
    get_device_state coll tid =
      .error (.typeError "NoneType object is not subscriptable") := by
  simp [get_device_state, h]

/-- Witness for `get_missing_session_raises_typeerror` on the empty
collection. -/
theorem get_missing_session_raises_typeerror_witness :
    get_device_state [] "t42" =
      .error (.typeError "NoneType object is not subscriptable") :=
  get_missing_session_raises_typeerror [] "t42" rfl

/-- C8 counterexample: after registering routine `fa` twice, the
condition registry holds two condition records for `fa` (the old and
the new), not exactly one; only the code registry entry is replaced. -/
theorem reregistration_duplicates_condition_record :
    ((add_condition (add_condition (initial_server Bool) reqA) reqA2).conditions.filter
        (fun c => c.function_name == "fa")).length = 2 ∧
    (add_condition (add_condition (initial_server Bool) reqA) reqA2).conditions
      = [condA, condA2] ∧
    dget (add_condition (add_condition (initial_server Bool) reqA) reqA2).codes "fa"
      = some ⟨"defA2", "runA2()", true⟩ :=
  ⟨rfl, rfl, rfl⟩

/-- C8 amended: registering a second condition under an already
registered routine name replaces the code registry entry for that name
with the newly supplied one, but appends the condition record, so both
condition records for that name remain in the registry (the new one
last). -/
theorem reregistration_overwrites_code_appends_condition {V : Type}
    (s : ServerState V) (name : String) (e1 e2 : CodeEntry V)
    (c1 c2 : ConditionRecord V)
    (h1 : c1.function_name = name) (h2 : c2.function_name = name) :
    dget (add_condition (add_condition s ⟨some [(name, e1)], c1⟩)
        ⟨some [(name, e2)], c2⟩).codes name = some e2 ∧
    (add_condition (add_condition s ⟨some [(name, e1)], c1⟩)
        ⟨some [(name, e2)], c2⟩).conditions = s.conditions ++ [c1, c2] := by
  constructor
  · simp [add_condition, dupdate, dget_dset_self]
  · simp [add_condition]

/-- Witness for `reregistration_overwrites_code_appends_condition` on
the concrete double registration of routine `fa`. -/
theorem reregistration_overwrites_code_appends_condition_witness :
    dget (add_condition (add_condition (initial_server Bool) reqA) reqA2).codes "fa"
      = some ⟨"defA2", "runA2()", true⟩ ∧
    (add_condition (add_condition (initial_server Bool) reqA) reqA2).conditions
      = [condA, condA2] :=
  reregistration_overwrites_code_appends_condition
    (initial_server Bool) "fa" ⟨"defA", "runA()", false⟩ ⟨"defA2", "runA2()", true⟩
    condA condA2 rfl rfl

/-- C2 (code bug): the transition of `condA` fires once, then
registering `condB` restarts the poller; because the spawned poller
works on a pickled copy of the code registry and only the condition
list (which does not hold `last_result`) is synchronized back, the new
poller starts from the stale `last_result = false` and re-fires the
very same transition on its first cycle. -/
theorem restart_refires_fired_transition :
    (server_run (initial_server Bool)
        [.add reqA, .poll rcTrue, .add reqB, .poll rcTrue]).triggers
      = [⟨"alice", "close the window"⟩, ⟨"alice", "close the window"⟩] :=
  rfl

/-- C1 counterexample: routine `fa` raises on every cycle and routine
`fb` (registered after it) transitions to its notify polarity on cycle
1; the exception is not swallowed: the poller process crashes on cycle
0, `fb` is never invoked (the cycle-0 invocation trace stops at `fa`)
and no trigger for `condB` is ever emitted. -/
theorem failing_routine_crashes_poller :
    poller_run rcFailA [condA, condB] (.running codes0) 3
      = (.crashed (.valueError "boom") codes0, []) ∧
    check_conditions_calls (rcFailA 0) [condA, condB] codes0 = ["fa"] ∧
    rcFailA 1 "defB" "runB()" = .ok true :=
  ⟨rfl, rfl, rfl⟩

/-- C1 amended: an exception raised by a condition's routine
propagates out of `check_conditions` (leaving the registry as it was
at the point of the raise and evaluating none of the later
conditions), kills the poller process, and a crashed poller evaluates
nothing and emits nothing in any later cycle. -/
theorem routine_exception_kills_poller {V : Type} [DecidableEq V]
    (run_code : RunCode V) (c : ConditionRecord V)
    (rest : List (ConditionRecord V)) (codes : CodeReg V)
    (entry : CodeEntry V) (e : PyError)
    (h1 : dget codes c.function_name = some entry)
    (h2 : run_code entry.code_define entry.code_run = .error e) :
    check_conditions run_code (c :: rest) codes = (codes, .error e) ∧
    poller_cycle run_code (c :: rest) (.running codes)
      = (.crashed e codes, none) ∧
    ∀ (rc : Nat → RunCode V) (conds : List (ConditionRecord V)) (n : Nat),
      poller_run rc conds (.crashed e codes) n = (.crashed e codes, []) := by
  have hcc : check_conditions run_code (c :: rest) codes = (codes, .error e) := by
    simp [check_conditions, h1, h2]
  refine ⟨hcc, ?_, ?_⟩
  · simp [poller_cycle, hcc]
  · intro rc conds n
    induction n with
    | zero => rfl
    | succ k ih => simp [poller_run, ih, poller_cycle]

/-- Witness for `routine_exception_kills_poller` on the concrete
two-condition registry with `fa` raising. -/
theorem routine_exception_kills_poller_witness :
    check_conditions (rcFailA 0) [condA, condB] codes0
      = (codes0, .error (.valueError "boom")) :=
  (routine_exception_kills_poller (rcFailA 0) condA [condB] codes0
    ⟨"defA", "runA()", false⟩ (.valueError "boom") rfl rfl).1

/-- C3 counterexample: in a single cycle over `[condA, condB]` where
both routines return `true`, `condB`'s new result differs from its
stored `last_result` and equals its notify polarity, yet the cycle
emits only `condA`'s message and does not update `fb`'s `last_result`,
contradicting the claim for `condB`. -/
theorem edge_trigger_not_per_condition :
    check_conditions rcTrue [condA, condB] codes0
      = ([("fa", ⟨"defA", "runA()", true⟩), ("fb", ⟨"defB", "runB()", false⟩)],
         .ok (some condA)) ∧
    rcTrue "defB" "runB()" = .ok true ∧
    condB.notify_when = true :=
  ⟨rfl, rfl, rfl⟩

/-- C3 amended: for the condition a cycle actually reaches (the head
of the remaining registry), evaluation is edge-triggered on its
declared transition: a changed result matching `notify_when` emits
that condition's message and stores the result, ending the cycle; a
changed result not matching updates `last_result` silently and the
walk continues; an unchanged result changes nothing for that record;
and after a matching transition fired, a cycle re-evaluating the
condition with the unchanged result fires nothing. -/
theorem edge_trigger_for_evaluated_condition {V : Type} [DecidableEq V]
    (run_code : RunCode V) (c : ConditionRecord V)
    (rest : List (ConditionRecord V)) (codes : CodeReg V)
    (entry : CodeEntry V) (status : V)
    (h1 : dget codes c.function_name = some entry)
    (h2 : run_code entry.code_define entry.code_run = .ok status) :
    (entry.last_result ≠ status → status = c.notify_when →
      check_conditions run_code (c :: rest) codes
        = (dset codes c.function_name { entry with last_result := status },
           .ok (some c))) ∧
    (entry.last_result ≠ status → status ≠ c.notify_when →
      check_conditions run_code (c :: rest) codes
        = check_conditions run_code rest
            (dset codes c.function_name { entry with last_result := status })) ∧
    (entry.last_result = status →
      check_conditions run_code (c :: rest) codes
        = check_conditions run_code rest codes) ∧
    (entry.last_result ≠ status → status = c.notify_when →
      check_conditions run_code [c]
          (dset codes c.function_name { entry with last_result := status })
        = (dset codes c.function_name { entry with last_result := status },
           .ok none)) := by
  refine ⟨?_, ?_, ?_, ?_⟩
  · intro hne hpol
    subst hpol
    simp [check_conditions, h1, h2, hne]
  · intro hne hpol
    simp [check_conditions, h1, h2, hne, hpol]
  · intro heq
    simp [check_conditions, h1, h2, heq]
  · intro hne hpol
    have hg := dget_dset_self codes c.function_name
      { entry with last_result := status }
    simp [check_conditions, hg, h2]

/-- Witness for `edge_trigger_for_evaluated_condition`: the concrete
false→true transition of `condA` fires exactly once. -/
theorem edge_trigger_for_evaluated_condition_witness :
    check_conditions rcTrue [condA] [("fa", ⟨"defA", "runA()", false⟩)]
      = ([("fa", ⟨"defA", "runA()", true⟩)], .ok (some condA)) :=
  (edge_trigger_for_evaluated_condition rcTrue condA []
    [("fa", ⟨"defA", "runA()", false⟩)] ⟨"defA", "runA()", false⟩ true
    rfl rfl).1 (by simp) rfl

/-- C4 counterexample: with `condA` triggering first, the cycle's
invocation trace is `["fa"]`: `condB`'s routine is not invoked at all
that cycle, although both conditions are registered. -/
theorem earlier_trigger_skips_later_invocations :
    check_conditions_calls rcTrue [condA, condB] codes0 = ["fa"] ∧
    (check_conditions_calls rcTrue [condA, condB] codes0).count "fb" = 0 ∧
    ([condA, condB].map (fun c => c.function_name)) = ["fa", "fb"] :=
  ⟨rfl, rfl, rfl⟩

/-- C4 amended: each cycle invokes the routines in registration order
but only up to the first condition that triggers (or raises): the
invocation trace is always an initial segment of the registered names,
and it is the full list exactly when the cycle ends with no trigger
and no exception. -/
theorem invocations_in_registration_order_until_first_trigger {V : Type}
    [DecidableEq V] (run_code : RunCode V)
    (conds : List (ConditionRecord V)) (codes : CodeReg V) :
    (∃ k, check_conditions_calls run_code conds codes
        = (conds.map (fun c => c.function_name)).take k) ∧
    ((check_conditions run_code conds codes).2 = .ok none →
      check_conditions_calls run_code conds codes
        = conds.map (fun c => c.function_name)) := by
  induction conds generalizing codes with
  | nil => exact ⟨⟨0, rfl⟩, fun _ => rfl⟩
  | cons c rest ih =>
    cases hdg : dget codes c.function_name with
    | none =>
      refine ⟨⟨0, by simp [check_conditions_calls, hdg]⟩, ?_⟩
      intro h
      simp [check_conditions, hdg] at h
    | some entry =>
      cases hrc : run_code entry.code_define entry.code_run with
      | error e =>
        refine ⟨⟨1, by simp [check_conditions_calls, hdg, hrc]⟩, ?_⟩
        intro h
        simp [check_conditions, hdg, hrc] at h
      | ok status =>
        by_cases hne : entry.last_result = status
        · refine ⟨?_, ?_⟩
          · obtain ⟨k, hk⟩ := (ih codes).1
            exact ⟨k + 1, by simp [check_conditions_calls, hdg, hrc, hne, hk]⟩
          · intro h
            have h' : (check_conditions run_code rest codes).2 = .ok none := by
              simpa [check_conditions, hdg, hrc, hne] using h
            simp [check_conditions_calls, hdg, hrc, hne, (ih codes).2 h']
        · by_cases hpol : status = c.notify_when
          · subst hpol
            refine ⟨⟨1, by simp [check_conditions_calls, hdg, hrc, hne]⟩, ?_⟩
            intro h
            simp [check_conditions, hdg, hrc, hne] at h
          · refine ⟨?_, ?_⟩
            · obtain ⟨k, hk⟩ :=
                (ih (dset codes c.function_name
                  { entry with last_result := status })).1
              exact ⟨k + 1,
                by simp [check_conditions_calls, hdg, hrc, hne, hpol, hk]⟩
            · intro h
              have h' : (check_conditions run_code rest
                  (dset codes c.function_name
                    { entry with last_result := status })).2 = .ok none := by
                simpa [check_conditions, hdg, hrc, hne, hpol] using h
              simp [check_conditions_calls, hdg, hrc, hne, hpol,
                (ih (dset codes c.function_name
                  { entry with last_result := status })).2 h']

/-- Witness for
`invocations_in_registration_order_until_first_trigger`: a cycle in
which nothing changes invokes both registered routines, in order. -/
theorem invocations_in_registration_order_witness :
    check_conditions_calls rcFalse [condA, condB] codes0 = ["fa", "fb"] :=
  (invocations_in_registration_order_until_first_trigger rcFalse
    [condA, condB] codes0).2 rfl

/-- C5: command application is atomic on failure — whenever the POST
handler answers with a status-500 response (a rejected command, a
raised exception, or an unsupported capability), the device tree
persisted in the state store after the call is the tree from before
the call: validation happens before `set_device_state` and no partial
write is persisted. -/
theorem rejected_command_leaves_persisted_tree_unchanged
    (persisted : DeviceState) (device_id : String) (commands : List Command)
    (h : (post_request persisted device_id commands).1.status_code = 500) :
    (post_request persisted device_id commands).2 = persisted := by
  cases hcl : commands_loop device_id persisted false commands with
  | error e => simp [post_request, hcl]
  | ok step =>
    cases step with
    | ret resp => simp [post_request, hcl]
    | cont ds' u =>
      exfalso
      simp [post_request, hcl] at h

/-- Witness for `rejected_command_leaves_persisted_tree_unchanged`:
the rejected `switch` command `spin` and the rejected
`setLevel("red")` both leave the persisted tree identical. -/
theorem rejected_command_leaves_tree_unchanged_witness :
    (post_request tree0 "d1" [⟨"main", "switch", "spin", []⟩]).2 = tree0 ∧
    (post_request tree0 "d1"
      [⟨"main", "switchLevel", "setLevel", [.pStr "red"]⟩]).2 = tree0 :=
  ⟨rejected_command_leaves_persisted_tree_unchanged tree0 "d1" _ rfl,
   rejected_command_leaves_persisted_tree_unchanged tree0 "d1" _ rfl⟩

/-- C6 counterexample: the capability/command pair
`("switchLevel", "dim")` is not in the capability table, yet the
request reports plain success (status 200, no error body): the
`switchLevel` branch ignores unrecognized commands and still sets
`update_state`. -/
theorem unknown_command_reports_success :
    post_request tree0 "d1" [⟨"main", "switchLevel", "dim", []⟩]
      = (⟨["successfully executed command"], 200⟩, tree0) :=
  rfl

/-- C6 amended: a command naming a capability outside the dispatch
table is answered with the typed `"capability not supported yet"`
500-body, aborting the request without persisting anything (and for
known capabilities, an unrecognized command either raises a
`ValueError` that is caught into a structured 500 body or — for
`switchLevel`, `colorTemperature`, `colorControl`, `refresh`,
`samsungce.dishwasherWashingCourse`, `thermostatCoolingSetpoint` —
falls through silently and the request reports success); no exception
escapes the POST handler. -/
theorem unknown_capability_returns_typed_error
    (ds : DeviceState) (device_id : String) (com : Command)
    (rest : List Command) (devd : DevD) (compd : CompD)
    (h1 : dget ds device_id = some devd)
    (h2 : dget devd com.component = some compd)
    (hcap : com.capability ∉ knownCapabilities) :
    post_request ds device_id (com :: rest)
      = (⟨["capability not supported yet"], 500⟩, ds) := by
  simp only [knownCapabilities, List.mem_cons, List.not_mem_nil, or_false,
    not_or] at hcap
  obtain ⟨n1, n2, n3, n4, n5, n6, n7, n8, n9, n10, n11, n12⟩ := hcap
  simp [post_request, commands_loop, apply_command, pyGet, h1, h2,
    n1, n2, n3, n4, n5, n6, n7, n8, n9, n10, n11, n12]

/-- Witness for `unknown_capability_returns_typed_error` on a concrete
unknown capability. -/
theorem unknown_capability_returns_typed_error_witness :
    post_request tree0 "d1" [⟨"main", "bogusCap", "doIt", []⟩]
      = (⟨["capability not supported yet"], 500⟩, tree0) :=
  unknown_capability_returns_typed_error tree0 "d1"
    ⟨"main", "bogusCap", "doIt", []⟩ [] _ _ rfl rfl (by decide)

/-- C10: `setHue` validates only the upper bound of its argument: any
integer hue `h ≤ 100` — negative values included — is accepted and
stored as `hue.value`, and only `h > 100` is rejected (with the caught
`ValueError` turned into a 500 error body and no change persisted). -/
theorem setHue_validates_only_upper_bound
    (ds : DeviceState) (dev comp : String) (h : Int)
    (devd : DevD) (compd : CompD) (capd : CapD) (attrd : AttrD)
    (h1 : dget ds dev = some devd) (h2 : dget devd comp = some compd)
    (h3 : dget compd "colorControl" = some capd)
    (h4 : dget capd "hue" = some attrd) :
    (h ≤ 100 →
      post_request ds dev [⟨comp, "colorControl", "setHue", [.pInt h]⟩]
        = (⟨["successfully executed command"], 200⟩,
           dset ds dev (dset devd comp (dset compd "colorControl"
             (dset capd "hue" (dset attrd "value" (.pInt h))))))) ∧
    (h ≤ 100 →
      getValue (post_request ds dev
          [⟨comp, "colorControl", "setHue", [.pInt h]⟩]).2
          dev comp "colorControl" "hue" = .ok (.pInt h)) ∧
    (100 < h →
      post_request ds dev [⟨comp, "colorControl", "setHue", [.pInt h]⟩]
        = (⟨["An error occurred: " ++
             "[\x27The hue value should be in percentage between 0-100\x27]"],
            500⟩, ds)) := by
  have hok : ∀ hle : h ≤ 100,
      post_request ds dev [⟨comp, "colorControl", "setHue", [.pInt h]⟩]
        = (⟨["successfully executed command"], 200⟩,
           dset ds dev (dset devd comp (dset compd "colorControl"
             (dset capd "hue" (dset attrd "value" (.pInt h)))))) := by
    intro hle
    have hcmp : pvalLe (.pInt h) 100 = .ok true := by
      simp [pvalLe, hle]
    simp [post_request, commands_loop, apply_command, setValue, pyGet,
      listGet, hcmp, h1, h2, h3, h4]
  refine ⟨hok, ?_, ?_⟩
  · intro hle
    rw [hok hle]
    simp [getValue, pyGet, dget_dset_self]
  · intro hgt
    have hcmp : pvalLe (.pInt h) 100 = .ok false := by
      simp only [pvalLe, Except.ok.injEq, decide_eq_false_iff_not, not_le]
      exact hgt
    simp [post_request, commands_loop, apply_command, pyGet,
      listGet, hcmp, h1, h2, pyErrStr]

/-- Witness for `setHue_validates_only_upper_bound` at the negative
hue `-5` (accepted and stored) and at `101` (rejected). -/
theorem setHue_validates_only_upper_bound_witness :
    getValue (post_request tree0 "d1"
        [⟨"main", "colorControl", "setHue", [.pInt (-5)]⟩]).2
        "d1" "main" "colorControl" "hue" = .ok (.pInt (-5)) ∧
    (post_request tree0 "d1"
        [⟨"main", "colorControl", "setHue", [.pInt 101]⟩]).1.status_code
      = 500 := by
  constructor
  · exact (setHue_validates_only_upper_bound tree0 "d1" "main" (-5)
      _ _ _ _ rfl rfl rfl rfl).2.1 (by norm_num)
  · rw [(setHue_validates_only_upper_bound tree0 "d1" "main" 101
      _ _ _ _ rfl rfl rfl rfl).2.2 (by norm_num)]

end SAGE
